import Mathlib

/-!
Verification of the adapter/capability layer of `dj_cache_panel`
(`src/dj_cache_panel/cache_panel.py`), a capability-aware panel over
heterogeneous Django cache backends.

The development shallowly embeds the Python code: Python strings become
`String` (operations modelled character-wise, matching Python's
character-based indexing), Python dicts with known key sets become
association lists or structures, exceptions become `Except`/`Option`
results, and the cursor-driven `while True` scan loop becomes a
fuel-indexed recursion in which exhausted fuel stands for a loop that has
not yet terminated.
-/

/-! ## Python string primitives used by the key codec -/

/-- Character-wise embedding of Python `s[n:]` (drop the first `n`
characters); Python indexes strings by characters, as does `List Char`. -/
def pyDrop (s : String) (n : Nat) : String := String.mk (s.data.drop n)

/-- Embedding of Python `s.startswith(pre)`. -/
def pyStartsWith (s pre : String) : Bool := pre.data.isPrefixOf s.data

/-- Embedding of Python `len(s)` (number of characters). -/
def pyLen (s : String) : Nat := s.data.length

/-- Split a character list at the first occurrence of `sep`, returning the
characters before it and the remainder after it, or `none` when `sep` does
not occur. -/
def splitFirst (sep : Char) : List Char → Option (List Char × List Char)
  | [] => Option.none
  | c :: rest =>
    if c = sep then some ([], rest)
    else (splitFirst sep rest).map (fun p => (c :: p.1, p.2))

/-- Embedding of Python `s.split(":", 2)`: split on `:` at most twice,
yielding between one and three pieces. -/
def pySplitColon2 (s : String) : List String :=
  match splitFirst ':' s.data with
  | Option.none => [s]
  | some (a, rest) =>
    match splitFirst ':' rest with
    | Option.none => [String.mk a, String.mk rest]
    | some (b, rest2) => [String.mk a, String.mk b, String.mk rest2]

/-! ## Python string ordering and `list.sort()`

Python compares strings lexicographically by code point.  Core Lean's
`String` order is propositionally the same but its decision procedure does
not reduce in the kernel, so the embedding carries its own executable
comparison and a proof that it agrees with Mathlib's `≤` on `String`. -/

/-- Executable lexicographic (code-point) string comparison, the order used
by Python's `list.sort()` on `str`. -/
def pyStrLeChars : List Char → List Char → Bool
  | [], _ => true
  | _ :: _, [] => false
  | a :: as, b :: bs =>
    if a = b then pyStrLeChars as bs else decide (a < b)

/-- `pyStrLe s t` decides Python's `s <= t` on strings. -/
def pyStrLe (s t : String) : Bool := pyStrLeChars s.data t.data

theorem pyStrLeChars_iff_not_lt (as bs : List Char) :
    pyStrLeChars as bs = true ↔ ¬ List.lt bs as := by
  induction as generalizing bs with
  | nil =>
    constructor
    · intro _ h
      nomatch h
    · intro _
      rfl
  | cons a as ih =>
    cases bs with
    | nil =>
      constructor
      · intro h
        nomatch h
      · intro h
        exact absurd (List.lt.nil a as) h
    | cons b bs =>
      by_cases hab : a = b
      · subst hab
        have hstep : pyStrLeChars (a :: as) (a :: bs) = pyStrLeChars as bs := by
          simp [pyStrLeChars]
        rw [hstep, ih bs]
        constructor
        · intro h hlt
          cases hlt with
          | head _ _ h1 => exact absurd h1 (lt_irrefl a)
          | tail _ _ h3 => exact h h3
        · intro h hlt
          exact h (List.lt.tail (lt_irrefl a) (lt_irrefl a) hlt)
      · have hstep : pyStrLeChars (a :: as) (b :: bs) = decide (a < b) := by
          simp [pyStrLeChars, hab]
        rw [hstep, decide_eq_true_eq]
        rcases lt_or_gt_of_ne hab with hlt | hgt
        · constructor
          · intro _ hl
            cases hl with
            | head _ _ h1 => exact absurd hlt (asymm h1)
            | tail h1 h2 _ => exact h2 hlt
          · intro _; exact hlt
        · constructor
          · intro h; exact absurd h (asymm hgt)
          · intro h; exact absurd (List.lt.head bs as hgt) h

/-- The executable comparison agrees with Mathlib's linear order on
`String`; both are lexicographic by code point. -/
theorem pyStrLe_iff (s t : String) : pyStrLe s t = true ↔ s ≤ t := by
  rw [← not_lt, String.lt_iff_toList_lt,
    show (String.toList t < String.toList s ↔ List.Lex (· < ·) t.toList s.toList) from Iff.rfl]
  rw [← List.lt_iff_lex_lt]
  exact pyStrLeChars_iff_not_lt s.data t.data

/-- The ordering relation of Python's `list.sort()` on strings. -/
def strLe (a b : String) : Prop := pyStrLe a b = true

instance : DecidableRel strLe := fun a b => instDecidableEqBool (pyStrLe a b) true

instance : IsTotal String strLe :=
  ⟨fun a b => by
    simp only [strLe, pyStrLe_iff]
    exact le_total a b⟩

instance : IsTrans String strLe :=
  ⟨fun a b c hab hbc => by
    simp only [strLe, pyStrLe_iff] at *
    exact le_trans hab hbc⟩

/-- Embedding of Python's in-place `list.sort()` on a list of strings: a
stable ascending sort under the code-point order. -/
def pySort (l : List String) : List String := List.insertionSort strLe l

theorem pySort_sorted (l : List String) : List.Sorted (· ≤ ·) (pySort l) :=
  (List.sorted_insertionSort strLe l).imp (fun h => (pyStrLe_iff _ _).mp h)

theorem pySort_length (l : List String) : (pySort l).length = l.length :=
  (List.perm_insertionSort strLe l).length_eq

/-! ## Glob matching (`fnmatch.fnmatch`)

The panel filters logical keys with Python's `fnmatch.fnmatch`, shell-style
glob matching where `*` matches any run of characters and `?` matches one
character (the spec's pattern language uses exactly these two wildcards). -/

/-- Shell-style glob matching of a name against a pattern, as used by
`fnmatch.fnmatch(name, pattern)` for patterns built from literals, `*`
and `?`. -/
def globMatch : List Char → List Char → Bool
  | [], [] => true
  | [], _ :: _ => false
  | '*' :: ps, [] => globMatch ps []
  | '*' :: ps, c :: cs => globMatch ps (c :: cs) || globMatch ('*' :: ps) cs
  | '?' :: ps, _ :: cs => globMatch ps cs
  | _ :: _, [] => false
  | p :: ps, c :: cs => decide (p = c) && globMatch ps cs
termination_by ps cs => (ps.length, cs.length)

/-- Embedding of `fnmatch.fnmatch(name, pattern)`. -/
def fnmatch (name pat : String) : Bool := globMatch pat.data name.data

/-- Embedding of Python `"*" in pattern or "?" in pattern`. -/
def hasWildcard (pat : String) : Bool :=
  pat.data.contains '*' || pat.data.contains '?'

/-! ## Stored values and the generic cache state

Django's cache API stores arbitrary Python objects; the embedding carries a
small value universe that includes `None`, which is all the claims need.
A backend's logical-key table is an association list from logical key to
stored value. -/

/-- A stored Python value; `none` is Python's `None`. -/
inductive PyVal where
  | none
  | bool (b : Bool)
  | int (n : Int)
  | str (s : String)
  deriving DecidableEq, Repr

/-- Python `type(value).__name__` for the embedded value universe. -/
def pyTypeName : PyVal → String
  | PyVal.none => "NoneType"
  | PyVal.bool _ => "bool"
  | PyVal.int _ => "int"
  | PyVal.str _ => "str"

/-- The logical-key table held by a backend instance: each entry maps a
logical key to its stored value (Django applies the physical-key transform
internally on `get`/`set`/`delete`). -/
abbrev CacheState := List (String × PyVal)

/-- Embedding of Django's `cache.get(key, default)` with a unique sentinel
default: `some v` when the backend holds an entry for `key` (the fetched
value is not the sentinel), `none` when it does not. -/
def cacheGet : CacheState → String → Option PyVal
  | [], _ => Option.none
  | (k, v) :: rest, key => if k = key then some v else cacheGet rest key

/-- Embedding of Django's `cache.delete(key)`: removes the entry for `key`
if present; deleting an absent key is a no-op. -/
def cacheDelete : CacheState → String → CacheState
  | [], _ => []
  | (k, v) :: rest, key =>
    if k = key then cacheDelete rest key else (k, v) :: cacheDelete rest key

/-- Embedding of Django's `cache.set(key, value, timeout)` as far as the
key table is concerned: upserts the entry for `key`. -/
def cacheSet (st : CacheState) (key : String) (v : PyVal) : CacheState :=
  (key, v) :: cacheDelete st key

/-! ## Capability table and operation gate (`CachePanel`)

`CachePanel.ABILITIES` is a class-level dict mapping operation names to
booleans; `DJ_CACHE_PANEL_SETTINGS["CACHES"][name]["abilities"]` may
override individual flags.  Dicts with string keys are embedded as
association lists in declaration order (Python dict keys are unique and
ordered).  Each public operation checks `is_feature_supported` and raises
`NotImplementedError` when the flag is false, otherwise delegates to the
overridable `_query`/`_get_key`/`_delete_key`/`_edit_key`/`_flush_cache`
primitive; the gated operations below are therefore parametrised by that
primitive. -/

/-- Lookup in an association-list embedding of a Python dict
(`d.get(k)` / `k in d`). -/
def lookupFlag : List (String × Bool) → String → Option Bool
  | [], _ => Option.none
  | (k, v) :: rest, f => if k = f then some v else lookupFlag rest f

/-- Embedding of the `CachePanel.abilities` property: start from the
class-level `ABILITIES` and replace each flag that the per-instance
override dict mentions. -/
def computedAbilities (base orr : List (String × Bool)) : List (String × Bool) :=
  base.map (fun p =>
    match lookupFlag orr p.1 with
    | some v => (p.1, v)
    | Option.none => p)

/-- A cache panel as far as capability gating is concerned: its class-level
`ABILITIES` dict and the per-instance `abilities` override dict from the
settings. -/
structure Panel where
  ABILITIES : List (String × Bool)
  overrideAbilities : List (String × Bool)

/-- Embedding of the `abilities` property of `CachePanel`. -/
def Panel.abilities (p : Panel) : List (String × Bool) :=
  computedAbilities p.ABILITIES p.overrideAbilities

/-- Embedding of `CachePanel.is_feature_supported`:
`self.abilities.get(feature, False)`. -/
def Panel.is_feature_supported (p : Panel) (feature : String) : Bool :=
  (lookupFlag (Panel.abilities p) feature).getD false

/-- The uniform unsupported-operation error: the Python code raises
`NotImplementedError` with an operation-specific message. -/
inductive PanelError where
  | notImplemented (msg : String)
  deriving DecidableEq, Repr

/-- The result dict of `query`. -/
structure ScanResult where
  keys : List String
  total_count : Nat
  page : Nat
  per_page : Nat
  deriving DecidableEq, Repr

/-- The result dict of `_get_key`. -/
structure KeyRecord where
  key : String
  value : PyVal
  exists_ : Bool
  type : Option String
  expiry : Option PyVal
  deriving DecidableEq, Repr

/-- The result dict of `_delete_key` / `_edit_key` / `_flush_cache`. -/
structure OpResult where
  success : Bool
  error : Option String
  message : String
  deriving DecidableEq, Repr

/-- Embedding of `CachePanel.query`: gate on the `query` capability, then
delegate to the backend-specific `_query` primitive. -/
def CachePanel.query (p : Panel)
    (primQuery : String → Nat → Nat → Nat → ScanResult)
    (pat : String) (page per_page scan_count : Nat) :
    Except PanelError ScanResult :=
  if Panel.is_feature_supported p "query" then
    Except.ok (primQuery pat page per_page scan_count)
  else
    Except.error (PanelError.notImplemented
      "Querying is not supported for this cache backend.")

/-- Embedding of `CachePanel.get_key`: gate on the `get_key` capability,
then delegate to `_get_key` against the backend state. -/
def CachePanel.get_key {σ : Type} (p : Panel)
    (primGet : String → σ → KeyRecord) (key : String) (st : σ) :
    Except PanelError KeyRecord :=
  if Panel.is_feature_supported p "get_key" then
    Except.ok (primGet key st)
  else
    Except.error (PanelError.notImplemented
      "Getting keys is not supported for this cache backend.")

/-- Embedding of `CachePanel.delete_key`: gate on the `delete_key`
capability, then delegate to `_delete_key` against the backend state. -/
def CachePanel.delete_key {σ : Type} (p : Panel)
    (primDelete : String → σ → OpResult × σ) (key : String) (st : σ) :
    Except PanelError (OpResult × σ) :=
  if Panel.is_feature_supported p "delete_key" then
    Except.ok (primDelete key st)
  else
    Except.error (PanelError.notImplemented
      "Deleting keys is not supported for this cache backend.")

/-- Embedding of `CachePanel.edit_key`: gate on the `edit_key` capability,
then delegate to `_edit_key` against the backend state. -/
def CachePanel.edit_key {σ : Type} (p : Panel)
    (primEdit : String → PyVal → Option Nat → σ → OpResult × σ)
    (key : String) (value : PyVal) (timeout : Option Nat) (st : σ) :
    Except PanelError (OpResult × σ) :=
  if Panel.is_feature_supported p "edit_key" then
    Except.ok (primEdit key value timeout st)
  else
    Except.error (PanelError.notImplemented
      "Editing keys is not supported for this cache backend.")

/-- Embedding of `CachePanel.flush_cache`: gate on the `flush_cache`
capability, then delegate to `_flush_cache` against the backend state. -/
def CachePanel.flush_cache {σ : Type} (p : Panel)
    (primFlush : σ → OpResult × σ) (st : σ) :
    Except PanelError (OpResult × σ) :=
  if Panel.is_feature_supported p "flush_cache" then
    Except.ok (primFlush st)
  else
    Except.error (PanelError.notImplemented
      "Flushing the cache is not supported for this cache backend.")

/-! ### The default `_get_key` / `_delete_key` / `_edit_key` primitives -/

/-- Embedding of `CachePanel._get_key`: fetch with a unique sentinel
default, compare against the sentinel (never truthiness) to decide
existence, return `None` as the value when the key is absent, and report
the stored value's type name only when the value is not `None`. -/
def CachePanel.getKeyPrim (key : String) (st : CacheState) : KeyRecord :=
  match cacheGet st key with
  | Option.none =>
      { key := key, value := PyVal.none, exists_ := false,
        type := Option.none, expiry := Option.none }
  | some v =>
      { key := key, value := v, exists_ := true,
        type := if v = PyVal.none then Option.none else some (pyTypeName v),
        expiry := Option.none }

/-- Embedding of `CachePanel._delete_key`: call `cache.delete(key)` and
report success unconditionally. -/
def CachePanel.deleteKeyPrim (key : String) (st : CacheState) :
    OpResult × CacheState :=
  ({ success := true, error := Option.none,
     message := "Key " ++ key ++ " deleted successfully." },
   cacheDelete st key)

/-- Embedding of `CachePanel._edit_key`: call `cache.set(key, value,
timeout)` (an upsert) and report success unconditionally. -/
def CachePanel.editKeyPrim (key : String) (value : PyVal) (_timeout : Option Nat)
    (st : CacheState) : OpResult × CacheState :=
  ({ success := true, error := Option.none,
     message := "Key " ++ key ++ " updated successfully." },
   cacheSet st key value)

/-! ### The class-level `ABILITIES` tables of the concrete panels -/

/-- `CachePanel.ABILITIES` (the abstract base class: everything off). -/
def CachePanel.ABILITIES : List (String × Bool) :=
  [("query", false), ("get_key", false), ("delete_key", false),
   ("edit_key", false), ("add_key", false), ("flush_cache", false)]

/-- `LocalMemoryCachePanel.ABILITIES`. -/
def LocalMemoryCachePanel.ABILITIES : List (String × Bool) :=
  [("query", true), ("get_key", true), ("delete_key", true),
   ("edit_key", true), ("add_key", true), ("flush_cache", true)]

/-- `DatabaseCachePanel.ABILITIES`. -/
def DatabaseCachePanel.ABILITIES : List (String × Bool) :=
  [("query", true), ("get_key", true), ("delete_key", true),
   ("edit_key", true), ("add_key", true), ("flush_cache", true)]

/-- `FileBasedCachePanel.ABILITIES` (no `query`: physical keys are hashed
filenames and cannot be listed). -/
def FileBasedCachePanel.ABILITIES : List (String × Bool) :=
  [("query", false), ("get_key", true), ("delete_key", true),
   ("edit_key", true), ("add_key", true), ("flush_cache", true)]

/-- `DummyCachePanel.ABILITIES` (everything off). -/
def DummyCachePanel.ABILITIES : List (String × Bool) :=
  [("query", false), ("get_key", false), ("delete_key", false),
   ("edit_key", false), ("add_key", false), ("flush_cache", false)]

/-- `GenericCachePanel.ABILITIES`. -/
def GenericCachePanel.ABILITIES : List (String × Bool) :=
  [("query", false), ("get_key", true), ("delete_key", true),
   ("edit_key", false), ("add_key", false), ("flush_cache", false)]

/-- `MemcachedCachePanel.ABILITIES`. -/
def MemcachedCachePanel.ABILITIES : List (String × Bool) :=
  [("query", false), ("get_key", true), ("delete_key", true),
   ("edit_key", true), ("add_key", true), ("flush_cache", true)]

/-- `DjangoRedisCachePanel.ABILITIES`. -/
def DjangoRedisCachePanel.ABILITIES : List (String × Bool) :=
  [("query", true), ("get_key", true), ("delete_key", true),
   ("edit_key", true), ("add_key", true), ("flush_cache", true)]

/-- `RedisCachePanel.ABILITIES`. -/
def RedisCachePanel.ABILITIES : List (String × Bool) :=
  [("query", true), ("get_key", true), ("delete_key", true),
   ("edit_key", true), ("add_key", true), ("flush_cache", true)]

/-- `RedisClusterCachePanel.ABILITIES` (`query` not implemented for
clusters). -/
def RedisClusterCachePanel.ABILITIES : List (String × Bool) :=
  [("query", false), ("get_key", true), ("delete_key", true),
   ("edit_key", true), ("add_key", true), ("flush_cache", true)]

/-- A `DummyCachePanel` instance with no per-instance overrides. -/
def dummyPanel : Panel := ⟨DummyCachePanel.ABILITIES, []⟩

/-- A `LocalMemoryCachePanel` instance with no per-instance overrides. -/
def locmemPanel : Panel := ⟨LocalMemoryCachePanel.ABILITIES, []⟩

/-! ## Helper lemmas about the generic cache state -/

theorem cacheGet_cacheDelete (st : CacheState) (key : String) :
    cacheGet (cacheDelete st key) key = Option.none := by
  induction st with
  | nil => rfl
  | cons kv rest ih =>
    obtain ⟨k, v⟩ := kv
    by_cases h : k = key
    · simpa [cacheDelete, h] using ih
    · simpa [cacheDelete, cacheGet, h] using ih

theorem cacheGet_isSome_iff (st : CacheState) (key : String) :
    (cacheGet st key).isSome = true ↔ ∃ v, (key, v) ∈ st := by
  induction st with
  | nil => simp [cacheGet]
  | cons kv rest ih =>
    obtain ⟨k, v⟩ := kv
    by_cases h : k = key
    · subst h
      simp [cacheGet]
    · simp only [cacheGet, if_neg h, ih]
      constructor
      · intro ⟨w, hw⟩
        exact ⟨w, List.mem_cons_of_mem _ hw⟩
      · intro ⟨w, hw⟩
        cases List.mem_cons.mp hw with
        | inl heq =>
          exact absurd (congrArg Prod.fst heq).symm h
        | inr hmem => exact ⟨w, hmem⟩

/-- Embedding of `CachePanel._flush_cache` for a backend whose `clear()`
empties exactly its own logical-key table (e.g. the per-process local
memory backend). -/
def CachePanel.flushCachePrim (_st : CacheState) : OpResult × CacheState :=
  ({ success := true, error := Option.none,
     message := "Cache flushed successfully." },
   [])

/-! ## C1: the operation gate -/

/-- C1: for every adapter and every gated operation `op` in `{query,
get_key, delete_key, edit_key, flush_cache}`, if the computed capability
map gives `capabilities[op] = false` then invoking `op` yields the uniform
unsupported-operation error, and this holds for *every* `_op` primitive and
every backend state — the primitive is never entered and no state change or
partial execution occurs. -/
theorem C1_capability_gate (p : Panel) :
    (Panel.is_feature_supported p "query" = false →
      ∀ (primQuery : String → Nat → Nat → Nat → ScanResult)
        (pat : String) (page per_page scan_count : Nat),
        CachePanel.query p primQuery pat page per_page scan_count =
          Except.error (PanelError.notImplemented
            "Querying is not supported for this cache backend.")) ∧
    (Panel.is_feature_supported p "get_key" = false →
      ∀ (σ : Type) (primGet : String → σ → KeyRecord) (key : String) (st : σ),
        CachePanel.get_key p primGet key st =
          Except.error (PanelError.notImplemented
            "Getting keys is not supported for this cache backend.")) ∧
    (Panel.is_feature_supported p "delete_key" = false →
      ∀ (σ : Type) (primDelete : String → σ → OpResult × σ) (key : String) (st : σ),
        CachePanel.delete_key p primDelete key st =
          Except.error (PanelError.notImplemented
            "Deleting keys is not supported for this cache backend.")) ∧
    (Panel.is_feature_supported p "edit_key" = false →
      ∀ (σ : Type) (primEdit : String → PyVal → Option Nat → σ → OpResult × σ)
        (key : String) (value : PyVal) (timeout : Option Nat) (st : σ),
        CachePanel.edit_key p primEdit key value timeout st =
          Except.error (PanelError.notImplemented
            "Editing keys is not supported for this cache backend.")) ∧
    (Panel.is_feature_supported p "flush_cache" = false →
      ∀ (σ : Type) (primFlush : σ → OpResult × σ) (st : σ),
        CachePanel.flush_cache p primFlush st =
          Except.error (PanelError.notImplemented
            "Flushing the cache is not supported for this cache backend.")) := by
  refine ⟨?_, ?_, ?_, ?_, ?_⟩
  · intro h primQuery pat page per_page scan_count
    simp [CachePanel.query, h]
  · intro h σ primGet key st
    simp [CachePanel.get_key, h]
  · intro h σ primDelete key st
    simp [CachePanel.delete_key, h]
  · intro h σ primEdit key value timeout st
    simp [CachePanel.edit_key, h]
  · intro h σ primFlush st
    simp [CachePanel.flush_cache, h]

/-- C1 witness: on the (all-capabilities-false) dummy panel each gated
operation returns the uniform error regardless of the supplied primitive
and state. -/
theorem C1_capability_gate_witness :
    CachePanel.query dummyPanel (fun _ _ _ _ => ⟨[], 0, 1, 25⟩) "*" 1 25 100 =
      Except.error (PanelError.notImplemented
        "Querying is not supported for this cache backend.") ∧
    CachePanel.get_key dummyPanel CachePanel.getKeyPrim "k" ([] : CacheState) =
      Except.error (PanelError.notImplemented
        "Getting keys is not supported for this cache backend.") ∧
    CachePanel.delete_key dummyPanel CachePanel.deleteKeyPrim "k" ([] : CacheState) =
      Except.error (PanelError.notImplemented
        "Deleting keys is not supported for this cache backend.") ∧
    CachePanel.edit_key dummyPanel CachePanel.editKeyPrim "k" (PyVal.int 1)
        Option.none ([] : CacheState) =
      Except.error (PanelError.notImplemented
        "Editing keys is not supported for this cache backend.") ∧
    CachePanel.flush_cache dummyPanel CachePanel.flushCachePrim ([] : CacheState) =
      Except.error (PanelError.notImplemented
        "Flushing the cache is not supported for this cache backend.") :=
  ⟨(C1_capability_gate dummyPanel).1 (by decide) _ "*" 1 25 100,
   (C1_capability_gate dummyPanel).2.1 (by decide) CacheState CachePanel.getKeyPrim "k" [],
   (C1_capability_gate dummyPanel).2.2.1 (by decide) CacheState CachePanel.deleteKeyPrim "k" [],
   (C1_capability_gate dummyPanel).2.2.2.1 (by decide) CacheState CachePanel.editKeyPrim
     "k" (PyVal.int 1) Option.none [],
   (C1_capability_gate dummyPanel).2.2.2.2 (by decide) CacheState CachePanel.flushCachePrim []⟩

/-! ## C10: the `add_key` flag gates nothing

The `CachePanel` class family declares an `add_key` flag in every
`ABILITIES` dict but defines no `add_key` operation; the only public
operations are `query`, `get_key`, `delete_key`, `edit_key` and
`flush_cache`, each of which consults only its own flag (key creation
happens through `edit_key`'s upsert). -/

/-- C10: the `add_key` capability flag gates nothing — two panels whose
computed capabilities agree on the five gated operations (in particular,
two panels identical except for `add_key`) produce identical results for
every public operation, on every primitive, argument and backend state. -/
theorem C10_add_key_ungated (p₁ p₂ : Panel)
    (hq : Panel.is_feature_supported p₁ "query" =
          Panel.is_feature_supported p₂ "query")
    (hg : Panel.is_feature_supported p₁ "get_key" =
          Panel.is_feature_supported p₂ "get_key")
    (hd : Panel.is_feature_supported p₁ "delete_key" =
          Panel.is_feature_supported p₂ "delete_key")
    (he : Panel.is_feature_supported p₁ "edit_key" =
          Panel.is_feature_supported p₂ "edit_key")
    (hf : Panel.is_feature_supported p₁ "flush_cache" =
          Panel.is_feature_supported p₂ "flush_cache") :
    (∀ (primQuery : String → Nat → Nat → Nat → ScanResult)
       (pat : String) (page per_page scan_count : Nat),
       CachePanel.query p₁ primQuery pat page per_page scan_count =
       CachePanel.query p₂ primQuery pat page per_page scan_count) ∧
    (∀ (σ : Type) (primGet : String → σ → KeyRecord) (key : String) (st : σ),
       CachePanel.get_key p₁ primGet key st =
       CachePanel.get_key p₂ primGet key st) ∧
    (∀ (σ : Type) (primDelete : String → σ → OpResult × σ) (key : String) (st : σ),
       CachePanel.delete_key p₁ primDelete key st =
       CachePanel.delete_key p₂ primDelete key st) ∧
    (∀ (σ : Type) (primEdit : String → PyVal → Option Nat → σ → OpResult × σ)
       (key : String) (value : PyVal) (timeout : Option Nat) (st : σ),
       CachePanel.edit_key p₁ primEdit key value timeout st =
       CachePanel.edit_key p₂ primEdit key value timeout st) ∧
    (∀ (σ : Type) (primFlush : σ → OpResult × σ) (st : σ),
       CachePanel.flush_cache p₁ primFlush st =
       CachePanel.flush_cache p₂ primFlush st) := by
  refine ⟨?_, ?_, ?_, ?_, ?_⟩
  · intro primQuery pat page per_page scan_count
    simp [CachePanel.query, hq]
  · intro σ primGet key st
    simp [CachePanel.get_key, hg]
  · intro σ primDelete key st
    simp [CachePanel.delete_key, hd]
  · intro σ primEdit key value timeout st
    simp [CachePanel.edit_key, he]
  · intro σ primFlush st
    simp [CachePanel.flush_cache, hf]

/-- A `LocalMemoryCachePanel` instance whose per-instance override turns
`add_key` off: it differs from `locmemPanel` only in the `add_key` flag. -/
def locmemPanelNoAdd : Panel :=
  ⟨LocalMemoryCachePanel.ABILITIES, [("add_key", false)]⟩

/-- C10 witness: on two concrete panels differing only in `add_key`, each
public operation gives identical results. -/
theorem C10_add_key_ungated_witness :
    CachePanel.query locmemPanel (fun _ _ _ _ => ⟨[], 0, 1, 25⟩) "*" 1 25 100 =
      CachePanel.query locmemPanelNoAdd (fun _ _ _ _ => ⟨[], 0, 1, 25⟩) "*" 1 25 100 ∧
    CachePanel.get_key locmemPanel CachePanel.getKeyPrim "k" ([] : CacheState) =
      CachePanel.get_key locmemPanelNoAdd CachePanel.getKeyPrim "k" ([] : CacheState) ∧
    CachePanel.delete_key locmemPanel CachePanel.deleteKeyPrim "k" ([] : CacheState) =
      CachePanel.delete_key locmemPanelNoAdd CachePanel.deleteKeyPrim "k" ([] : CacheState) ∧
    CachePanel.edit_key locmemPanel CachePanel.editKeyPrim "k" (PyVal.int 1)
        Option.none ([] : CacheState) =
      CachePanel.edit_key locmemPanelNoAdd CachePanel.editKeyPrim "k" (PyVal.int 1)
        Option.none ([] : CacheState) ∧
    CachePanel.flush_cache locmemPanel CachePanel.flushCachePrim ([] : CacheState) =
      CachePanel.flush_cache locmemPanelNoAdd CachePanel.flushCachePrim ([] : CacheState) :=
  ⟨(C10_add_key_ungated locmemPanel locmemPanelNoAdd (by decide) (by decide)
      (by decide) (by decide) (by decide)).1 _ "*" 1 25 100,
   (C10_add_key_ungated locmemPanel locmemPanelNoAdd (by decide) (by decide)
      (by decide) (by decide) (by decide)).2.1 CacheState CachePanel.getKeyPrim "k" [],
   (C10_add_key_ungated locmemPanel locmemPanelNoAdd (by decide) (by decide)
      (by decide) (by decide) (by decide)).2.2.1 CacheState CachePanel.deleteKeyPrim "k" [],
   (C10_add_key_ungated locmemPanel locmemPanelNoAdd (by decide) (by decide)
      (by decide) (by decide) (by decide)).2.2.2.1 CacheState CachePanel.editKeyPrim
     "k" (PyVal.int 1) Option.none [],
   (C10_add_key_ungated locmemPanel locmemPanelNoAdd (by decide) (by decide)
      (by decide) (by decide) (by decide)).2.2.2.2 CacheState CachePanel.flushCachePrim []⟩

/-! ## C6: sentinel-based existence in `get_key` -/

/-- C6: `_get_key` distinguishes an absent key from a key stored with the
null value by sentinel comparison, never truthiness: `exists_` is true
exactly when the backend holds an entry for the key (even when the stored
value is `None`), and the returned value is the stored value when present
and `None` when absent. -/
theorem C6_get_key_sentinel (st : CacheState) (key : String) :
    ((CachePanel.getKeyPrim key st).exists_ = true ↔ ∃ v, (key, v) ∈ st) ∧
    (CachePanel.getKeyPrim key st).value = (cacheGet st key).getD PyVal.none ∧
    (cacheGet st key = some PyVal.none →
      (CachePanel.getKeyPrim key st).exists_ = true) := by
  refine ⟨?_, ?_, ?_⟩
  · rw [← cacheGet_isSome_iff]
    cases h : cacheGet st key <;> simp [CachePanel.getKeyPrim, h]
  · cases h : cacheGet st key <;> simp [CachePanel.getKeyPrim, h]
  · intro h
    simp [CachePanel.getKeyPrim, h]

/-- C6 witness: a key stored with value `None` still reports
`exists_ = true`. -/
theorem C6_get_key_sentinel_witness :
    (CachePanel.getKeyPrim "k" [("k", PyVal.none)]).exists_ = true :=
  (C6_get_key_sentinel [("k", PyVal.none)] "k").2.2 (by decide)

/-! ## C7: idempotent, total `delete_key` -/

/-- C7: on a panel supporting `delete_key`, deleting an absent key succeeds
(not an error), deleting it again succeeds again, and after either call the
backend holds no entry for the key. -/
theorem C7_delete_idempotent (p : Panel)
    (hp : Panel.is_feature_supported p "delete_key" = true)
    (st : CacheState) (key : String)
    (_habs : cacheGet st key = Option.none) :
    CachePanel.delete_key p CachePanel.deleteKeyPrim key st =
      Except.ok ({ success := true, error := Option.none,
                   message := "Key " ++ key ++ " deleted successfully." },
                 cacheDelete st key) ∧
    CachePanel.delete_key p CachePanel.deleteKeyPrim key (cacheDelete st key) =
      Except.ok ({ success := true, error := Option.none,
                   message := "Key " ++ key ++ " deleted successfully." },
                 cacheDelete (cacheDelete st key) key) ∧
    cacheGet (cacheDelete st key) key = Option.none ∧
    cacheGet (cacheDelete (cacheDelete st key) key) key = Option.none := by
  refine ⟨?_, ?_, cacheGet_cacheDelete st key, cacheGet_cacheDelete _ key⟩
  · simp [CachePanel.delete_key, hp, CachePanel.deleteKeyPrim]
  · simp [CachePanel.delete_key, hp, CachePanel.deleteKeyPrim]

/-- C7 witness: deleting the absent key `"k"` from an empty local-memory
backend succeeds, twice. -/
theorem C7_delete_idempotent_witness :
    CachePanel.delete_key locmemPanel CachePanel.deleteKeyPrim "k" ([] : CacheState) =
      Except.ok ({ success := true, error := Option.none,
                   message := "Key k deleted successfully." }, ([] : CacheState)) ∧
    CachePanel.delete_key locmemPanel CachePanel.deleteKeyPrim "k"
        (cacheDelete [] "k") =
      Except.ok ({ success := true, error := Option.none,
                   message := "Key k deleted successfully." },
                 cacheDelete (cacheDelete [] "k") "k") ∧
    cacheGet (cacheDelete [] "k") "k" = Option.none ∧
    cacheGet (cacheDelete (cacheDelete [] "k") "k") "k" = Option.none :=
  C7_delete_idempotent locmemPanel (by decide) [] "k" rfl

/-! ## The local-memory scan engine (`LocalMemoryCachePanel._query`)

`LocMemCache` holds physical keys in an internal dict; `_query` iterates
them, decodes each physical key to its logical form, filters by the glob
pattern, sorts, and slices the requested page.  The embedding takes the
list of physical keys of the internal dict and the configured
`key_prefix`. -/

/-- Embedding of the per-key decode step inside
`LocalMemoryCachePanel._query`: split the internal key on `":"` into at
most 3 parts; when there are 3 parts take the third and strip the
configured prefix from its front when non-empty and present; otherwise keep
the internal key unchanged. -/
def extractUserKey (keyPrefix internal_key : String) : String :=
  let parts := pySplitColon2 internal_key
  if parts.length ≥ 3 then
    let user_key := parts.getD 2 ""
    if keyPrefix ≠ "" && pyStartsWith user_key keyPrefix then
      pyDrop user_key (pyLen keyPrefix)
    else
      user_key
  else
    internal_key

/-- The filtered (pre-sort, pre-slice) logical key list of
`LocalMemoryCachePanel._query`: decode every internal key, then filter with
`fnmatch` unless the pattern is empty or `"*"`. -/
def locmemMatchingKeys (internalKeys : List String) (keyPrefix pat : String) :
    List String :=
  let all_keys := internalKeys.map (extractUserKey keyPrefix)
  if pat ≠ "" && pat ≠ "*" then
    all_keys.filter (fun k => fnmatch k pat)
  else
    all_keys

/-- Embedding of `LocalMemoryCachePanel._query` (for 1-indexed pages, where
Python's slice `[(page-1)*per_page : (page-1)*per_page + per_page]` is
`drop`-then-`take`): decode, filter, sort, count, slice. -/
def LocalMemoryCachePanel.queryPrim (internalKeys : List String)
    (keyPrefix : String) (pat : String) (page per_page : Nat) : ScanResult :=
  let matching_keys := pySort (locmemMatchingKeys internalKeys keyPrefix pat)
  let total_count := matching_keys.length
  let start_idx := (page - 1) * per_page
  let paginated_keys := (matching_keys.drop start_idx).take per_page
  { keys := paginated_keys, total_count := total_count,
    page := page, per_page := per_page }

/-! ## C2: key-codec reversal

On the spec's example physical key `":1:myprefix:user_key"` with configured
prefix `"myprefix"`, the decode step of `LocalMemoryCachePanel._query`
takes the third split part `"myprefix:user_key"` and strips exactly the
eight characters of the prefix, leaving `":user_key"` — not `"user_key"`.
The internal format the code is written against (`":{version}:{key_prefix}{key}"`,
with no separator between prefix and key) decodes to `"user_key"` from the
physical key `":1:myprefixuser_key"`. -/

/-- C2 (counterexample): decoding the physical key `":1:myprefix:user_key"`
with configured prefix `"myprefix"` does not yield the logical key
`"user_key"`. -/
theorem C2_codec_counterexample :
    extractUserKey "myprefix" ":1:myprefix:user_key" ≠ "user_key" := by
  decide

/-- C2 (amended): with configured prefix `"myprefix"`, the decode step
yields `":user_key"` for the physical key `":1:myprefix:user_key"` (the
prefix-strip removes only the characters of `"myprefix"`, leaving the
following `":"`); the physical key whose decode is `"user_key"` is
`":1:myprefixuser_key"`. -/
theorem C2_codec_amended :
    extractUserKey "myprefix" ":1:myprefix:user_key" = ":user_key" ∧
    extractUserKey "myprefix" ":1:myprefixuser_key" = "user_key" :=
  ⟨by decide, by decide⟩

/-! ## C4: the last-page pagination invariant -/

/-- The count of keys on page `⌈N/p⌉` of a 1-indexed pagination of `N`
items with `p` per page: `p` when `p ∣ N`, else `N % p`. -/
theorem lastPage_count (N p : Nat) (hp : 0 < p) (hN : 1 ≤ N) :
    min p (N - ((N + p - 1) / p - 1) * p) = if p ∣ N then p else N % p := by
  have hq1 : 1 ≤ (N + p - 1) / p := (Nat.one_le_div_iff hp).mpr (by omega)
  have h1 : p * ((N + p - 1) / p) + (N + p - 1) % p = N + p - 1 :=
    Nat.div_add_mod _ _
  have hr : (N + p - 1) % p < p := Nat.mod_lt _ hp
  set q := (N + p - 1) / p with hqdef
  set r := (N + p - 1) % p with hrdef
  have e1 : p * q = p * (q - 1) + p := by
    conv_lhs => rw [← Nat.succ_pred_eq_of_pos hq1]
    rw [Nat.mul_succ]
    rfl
  have e2 : (q - 1) * p = p * (q - 1) := Nat.mul_comm _ _
  rw [e2]
  set A := p * (q - 1) with hA
  have hNA : N = A + (r + 1) := by omega
  by_cases hcase : r + 1 = p
  · have hdvd : p ∣ N := ⟨q, by omega⟩
    rw [if_pos hdvd]
    have hsub : N - A = p := by omega
    rw [hsub, Nat.min_self]
  · have hNmod : N % p = r + 1 := by
      rw [hNA, hA, Nat.mul_add_mod]
      exact Nat.mod_eq_of_lt (by omega)
    have hndvd : ¬ p ∣ N := by
      intro hd
      rw [Nat.dvd_iff_mod_eq_zero] at hd
      omega
    rw [if_neg hndvd, hNmod]
    have hsub : N - A = r + 1 := by omega
    rw [hsub]
    exact Nat.min_eq_right (by omega)

/-- C4: pagination is 1-indexed over the filtered, sorted key list with
slice `[(page-1)*per_page : page*per_page]`: for the local-memory scan
engine, for every pattern matching `N ≥ 1` keys and every `per_page = p >
0`, requesting page `⌈N/p⌉` returns exactly `N mod p` keys (`p` when `p`
divides `N`), and `total_count = N` on every page requested. -/
theorem C4_pagination (internalKeys : List String) (keyPrefix pat : String)
    (p : Nat) (hp : 0 < p)
    (hN : 1 ≤ (locmemMatchingKeys internalKeys keyPrefix pat).length) :
    (LocalMemoryCachePanel.queryPrim internalKeys keyPrefix pat
        (((locmemMatchingKeys internalKeys keyPrefix pat).length + p - 1) / p)
        p).keys.length =
      (if p ∣ (locmemMatchingKeys internalKeys keyPrefix pat).length then p
       else (locmemMatchingKeys internalKeys keyPrefix pat).length % p) ∧
    ∀ page : Nat,
      (LocalMemoryCachePanel.queryPrim internalKeys keyPrefix pat page
        p).total_count =
        (locmemMatchingKeys internalKeys keyPrefix pat).length := by
  constructor
  · simp only [LocalMemoryCachePanel.queryPrim, List.length_take,
      List.length_drop, pySort_length]
    exact lastPage_count _ p hp hN
  · intro page
    simp only [LocalMemoryCachePanel.queryPrim, pySort_length]

/-- C4 witness: three keys, two per page — page `⌈3/2⌉ = 2` holds `3 mod 2
= 1` key, and `total_count = 3` also on (empty) page 5. -/
theorem C4_pagination_witness :
    (LocalMemoryCachePanel.queryPrim [":1:a", ":1:b", ":1:c"] "" "*" 2
        2).keys.length =
      (if 2 ∣ (locmemMatchingKeys [":1:a", ":1:b", ":1:c"] "" "*").length
       then 2
       else (locmemMatchingKeys [":1:a", ":1:b", ":1:c"] "" "*").length % 2) ∧
    (LocalMemoryCachePanel.queryPrim [":1:a", ":1:b", ":1:c"] "" "*" 5
        2).total_count =
      (locmemMatchingKeys [":1:a", ":1:b", ":1:c"] "" "*").length :=
  ⟨(C4_pagination [":1:a", ":1:b", ":1:c"] "" "*" 2 (by decide) (by decide)).1,
   (C4_pagination [":1:a", ":1:b", ":1:c"] "" "*" 2 (by decide) (by decide)).2 5⟩

/-! ## The cursor-based remote scan loop (Redis panels)

Both Redis panels run

```
all_keys = []; cursor = 0
while True:
    cursor, keys = connection.scan(cursor=cursor, match=..., count=scan_count)
    all_keys.extend(keys)
    if cursor == 0:
        break
```

inside a `try`.  The backend is modelled as a function from the submitted
cursor to its response: a batch `(next_cursor, keys)` or a raised
transport/protocol failure carrying the exception text.  The `while True`
loop becomes a fuel-indexed recursion; `none` means the loop has not
finished within the given fuel. -/

/-- One response of the remote backend's `SCAN` primitive for a submitted
cursor: a batch with the next cursor and a chunk of physical keys, or a
raised transport/protocol failure with the exception's text. -/
inductive ScanResp where
  | batch (cursor : Nat) (keys : List String)
  | fail (msg : String)
  deriving DecidableEq, Repr

/-- Embedding of the cursor-scan `while True` loop: call `scanFn` on the
current cursor, extend the accumulator with the returned keys, stop when
the returned cursor is `0`; a raised failure aborts the loop with the
exception text.  `none` means the fuel ran out before the loop finished. -/
def scanAll (scanFn : Nat → ScanResp) :
    Nat → Nat → List String → Option (Except String (List String))
  | 0, _, _ => Option.none
  | fuel + 1, cursor, acc =>
    match scanFn cursor with
    | ScanResp.fail msg => some (Except.error msg)
    | ScanResp.batch next ks =>
      if next = 0 then some (Except.ok (acc ++ ks))
      else scanAll scanFn fuel next (acc ++ ks)

/-- A finite cursor trace of the backend starting at cursor `c`: each step
records the returned `(next_cursor, keys)`, intermediate cursors are
non-zero, and the last returned cursor is `0` (the starting sentinel). -/
def ValidTrace (scanFn : Nat → ScanResp) : Nat → List (Nat × List String) → Prop
  | _, [] => False
  | c, (next, ks) :: rest =>
    scanFn c = ScanResp.batch next ks ∧
    (match rest with
     | [] => next = 0
     | _ :: _ => next ≠ 0 ∧ ValidTrace scanFn next rest)

/-- One unfolding step of the scan loop. -/
theorem scanAll_succ (scanFn : Nat → ScanResp) (fuel cursor : Nat)
    (acc : List String) :
    scanAll scanFn (fuel + 1) cursor acc =
      match scanFn cursor with
      | ScanResp.fail msg => some (Except.error msg)
      | ScanResp.batch next ks =>
        if next = 0 then some (Except.ok (acc ++ ks))
        else scanAll scanFn fuel next (acc ++ ks) := rfl

/-- Along a valid trace the scan loop terminates in exactly one iteration
per trace step and accumulates exactly the concatenation of the returned
batches. -/
theorem scanAll_of_validTrace (scanFn : Nat → ScanResp) :
    ∀ (steps : List (Nat × List String)) (c : Nat) (acc : List String),
      ValidTrace scanFn c steps →
      scanAll scanFn steps.length c acc =
        some (Except.ok (acc ++ (steps.map Prod.snd).flatten)) := by
  intro steps
  induction steps with
  | nil => intro c acc h; exact absurd h id
  | cons step rest ih =>
    intro c acc h
    obtain ⟨next, ks⟩ := step
    obtain ⟨hsc, hrest⟩ := h
    cases rest with
    | nil =>
      simp only at hrest
      subst hrest
      simp [scanAll, hsc]
    | cons step2 rest2 =>
      obtain ⟨hnz, hvalid⟩ := hrest
      rw [List.length_cons, scanAll_succ, hsc]
      simp only [if_neg hnz]
      rw [ih next (acc ++ ks) hvalid]
      simp

/-! ## The Redis panels (`DjangoRedisCachePanel`, `RedisCachePanel`) -/

/-- One entry of a Redis scan result: the decoded logical key together with
the original physical (prefixed) Redis key. -/
structure RedisKeyEntry where
  key : String
  redis_key : String
  deriving DecidableEq, Repr

/-- The ordering used by `decoded_keys.sort(key=lambda x: x["key"])`:
compare entries by their logical key. -/
def entryLe (a b : RedisKeyEntry) : Prop :=
  strLe (RedisKeyEntry.key a) (RedisKeyEntry.key b)

instance : DecidableRel entryLe := fun a b =>
  instDecidableEqBool (pyStrLe (RedisKeyEntry.key a) (RedisKeyEntry.key b)) true

instance : IsTotal RedisKeyEntry entryLe :=
  ⟨fun _ _ => IsTotal.total (r := strLe) _ _⟩

instance : IsTrans RedisKeyEntry entryLe :=
  ⟨fun _ _ _ hab hbc => IsTrans.trans (r := strLe) _ _ _ hab hbc⟩

/-- Django's default `KEY_FUNCTION`, used by `self.cache.make_key`:
`"%s:%s:%s" % (key_prefix, version, key)`. -/
def make_key (keyPrefix : String) (version : Nat) (key : String) : String :=
  keyPrefix ++ ":" ++ toString version ++ ":" ++ key

/-- The result dict of the Redis panels' `_query`: like `ScanResult` but
with `(logical, physical)` key entries and an `error` field that is present
exactly on the failure path. -/
structure RemoteScanResult where
  keys : List RedisKeyEntry
  total_count : Nat
  page : Nat
  per_page : Nat
  error : Option String
  deriving DecidableEq, Repr

/-- The per-key decode step of `DjangoRedisCachePanel._query`: strip the
configured `key_prefix` from the front when non-empty and present, then, if
the remainder starts with `":"`, split on `":"` into at most 3 parts and
take the third when it exists (the `":VERSION:key"` version strip). -/
def decodeDjangoRedis (keyPrefix pk : String) : String :=
  let u1 :=
    if keyPrefix ≠ "" && pyStartsWith pk keyPrefix then
      pyDrop pk (pyLen keyPrefix)
    else pk
  if pyStartsWith u1 ":" then
    let parts := pySplitColon2 u1
    if parts.length ≥ 3 then parts.getD 2 u1 else u1
  else u1

/-- The decode-and-sort stage of `DjangoRedisCachePanel._query` on the
accumulated scan output: build `{key, redis_key}` entries and sort them by
logical key. -/
def djangoRedisDecodedSorted (keyPrefix : String) (all_keys : List String) :
    List RedisKeyEntry :=
  List.insertionSort entryLe
    (all_keys.map (fun pk =>
      { key := decodeDjangoRedis keyPrefix pk, redis_key := pk }))

/-- Embedding of `DjangoRedisCachePanel._query`.  The backend's `SCAN`
primitive is a function of the submitted match pattern, `count` hint and
cursor; the `while True` loop is `scanAll` with explicit fuel (`none` =
loop still running).  On a raised failure the result is the empty dict with
`error = str(e)`; on success the decoded entries are sorted by logical key
and sliced. -/
def DjangoRedisCachePanel.queryPrim (backend : String → Nat → Nat → ScanResp)
    (fuel : Nat) (keyPrefix : String) (version : Nat)
    (pat : String) (page per_page scan_count : Nat) :
    Option RemoteScanResult :=
  let redisPat := if pat ≠ "" && pat ≠ "*" then pat else "*"
  let prefixPat := make_key keyPrefix version redisPat
  match scanAll (fun cursor => backend prefixPat scan_count cursor) fuel 0 [] with
  | Option.none => Option.none
  | some (Except.error msg) =>
    some { keys := [], total_count := 0, page := page, per_page := per_page,
           error := some msg }
  | some (Except.ok all_keys) =>
    let sorted := djangoRedisDecodedSorted keyPrefix all_keys
    let total_count := sorted.length
    let start_idx := (page - 1) * per_page
    some { keys := (sorted.drop start_idx).take per_page,
           total_count := total_count, page := page, per_page := per_page,
           error := Option.none }

/-- The per-key decode step of `RedisCachePanel._query` (Django's built-in
backend, physical format `":VERSION:key"`): when the key starts with `":"`,
split on `":"` into at most 3 parts and take the third (or, with exactly
two parts, the second). -/
def decodeBuiltinRedis (pk : String) : String :=
  if pyStartsWith pk ":" then
    let parts := pySplitColon2 pk
    if parts.length ≥ 3 then parts.getD 2 pk
    else if parts.length = 2 then parts.getD 1 pk
    else pk
  else pk

/-- The client-side pattern filter of `RedisCachePanel._query`: with a
non-empty, non-`"*"` pattern, wildcard patterns go through `fnmatch` and
wildcard-free patterns are exact matches. -/
def keepsPattern (pat user_key : String) : Bool :=
  if pat ≠ "" && pat ≠ "*" then
    if hasWildcard pat then fnmatch user_key pat else user_key == pat
  else true

/-- The decode-filter-sort stage of `RedisCachePanel._query` on the
accumulated scan output. -/
def builtinRedisDecodedSorted (pat : String) (all_keys : List String) :
    List RedisKeyEntry :=
  List.insertionSort entryLe
    ((all_keys.map (fun pk =>
        ({ key := decodeBuiltinRedis pk, redis_key := pk } : RedisKeyEntry))).filter
      (fun e => keepsPattern pat (RedisKeyEntry.key e)))

/-- Embedding of `RedisCachePanel._query` from the point where the Redis
connection has been obtained (a connection-acquisition failure is caught
earlier and returns its own error dict).  The backend is always scanned
with match pattern `"*"`; the pattern is applied client-side.  On a raised
failure the result is the empty dict with
`error = "SCAN failed: " ++ str(e)` (the appended traceback text is
elided; it only lengthens the message). -/
def RedisCachePanel.queryPrim (backend : String → Nat → Nat → ScanResp)
    (fuel : Nat) (pat : String) (page per_page scan_count : Nat) :
    Option RemoteScanResult :=
  match scanAll (fun cursor => backend "*" scan_count cursor) fuel 0 [] with
  | Option.none => Option.none
  | some (Except.error msg) =>
    some { keys := [], total_count := 0, page := page, per_page := per_page,
           error := some ("SCAN failed: " ++ msg) }
  | some (Except.ok all_keys) =>
    let sorted := builtinRedisDecodedSorted pat all_keys
    let total_count := sorted.length
    let start_idx := (page - 1) * per_page
    some { keys := (sorted.drop start_idx).take per_page,
           total_count := total_count, page := page, per_page := per_page,
           error := Option.none }

/-! ## C9: termination of the cursor scan loop -/

/-- C9: when the backend's `SCAN` returns the starting sentinel cursor `0`
after finitely many iterations (a finite valid cursor trace from cursor
`0`), the scan loop terminates in exactly one iteration per trace step —
stopping precisely at the step whose returned cursor is `0` — and
accumulates exactly the concatenation of the returned batches; hence two
backends whose traces return the same keys (e.g. under different
`scan_count` batch sizes) yield the same accumulated key list, the batch
size affecting only the number of iterations. -/
theorem C9_scan_terminates :
    (∀ (scanFn : Nat → ScanResp) (steps : List (Nat × List String)),
      ValidTrace scanFn 0 steps →
      scanAll scanFn steps.length 0 [] =
        some (Except.ok (steps.map Prod.snd).flatten)) ∧
    (∀ (s₁ s₂ : Nat → ScanResp) (t₁ t₂ : List (Nat × List String)),
      ValidTrace s₁ 0 t₁ → ValidTrace s₂ 0 t₂ →
      (t₁.map Prod.snd).flatten = (t₂.map Prod.snd).flatten →
      scanAll s₁ t₁.length 0 [] = scanAll s₂ t₂.length 0 []) := by
  constructor
  · intro scanFn steps h
    simpa using scanAll_of_validTrace scanFn steps 0 [] h
  · intro s₁ s₂ t₁ t₂ h₁ h₂ heq
    have e₁ := scanAll_of_validTrace s₁ t₁ 0 [] h₁
    have e₂ := scanAll_of_validTrace s₂ t₂ 0 [] h₂
    rw [e₁, e₂, heq]

/-- A backend answering the whole keyspace in one batch. -/
def scanOneBatch : Nat → ScanResp := fun _ => ScanResp.batch 0 ["a", "b"]

/-- A backend answering the same keyspace in two batches through a
non-zero intermediate cursor. -/
def scanTwoBatches : Nat → ScanResp := fun c =>
  if c = 0 then ScanResp.batch 7 ["a"] else ScanResp.batch 0 ["b"]

/-- C9 witness: a one-batch trace terminates with its keys, and a
two-batch trace over the same keys terminates with the same accumulated
list despite the extra iteration. -/
theorem C9_scan_terminates_witness :
    scanAll scanOneBatch 1 0 [] = some (Except.ok ["a", "b"]) ∧
    scanAll scanTwoBatches 2 0 [] = scanAll scanOneBatch 1 0 [] :=
  ⟨C9_scan_terminates.1 scanOneBatch [(0, ["a", "b"])] ⟨rfl, rfl⟩,
   C9_scan_terminates.2 scanTwoBatches scanOneBatch
     [(7, ["a"]), (0, ["b"])] [(0, ["a", "b"])]
     ⟨rfl, by decide, rfl, rfl⟩ ⟨rfl, rfl⟩ rfl⟩

/-! ## C5: remote scan failures degrade to an error result -/

/-- The `"SCAN failed: "`-prefixed error message is never empty. -/
theorem scanFailed_ne_empty (s : String) : "SCAN failed: " ++ s ≠ "" := by
  intro h
  have h2 := congrArg String.data h
  rw [String.data_append] at h2
  exact absurd (List.append_eq_nil.mp h2).1 (by decide)

/-- C5: for both Redis adapters, a transport/protocol failure raised during
the cursor-scan iteration never propagates: `_query` returns a result (it
does not re-raise) with `keys = []`, `total_count = 0` and a populated
`error` string — non-empty whenever the exception's text is (and always
non-empty for the built-in-Redis panel, whose message carries the
`"SCAN failed: "` prefix). -/
theorem C5_scan_failure
    (backend₁ backend₂ : String → Nat → Nat → ScanResp)
    (fuel₁ fuel₂ : Nat) (keyPrefix : String) (version : Nat)
    (pat₁ pat₂ : String) (page per_page scan_count : Nat)
    (msg₁ msg₂ : String)
    (h₁ : scanAll
        (fun cursor => backend₁
          (make_key keyPrefix version (if pat₁ ≠ "" && pat₁ ≠ "*" then pat₁ else "*"))
          scan_count cursor)
        fuel₁ 0 [] = some (Except.error msg₁))
    (hm : msg₁ ≠ "")
    (h₂ : scanAll (fun cursor => backend₂ "*" scan_count cursor)
        fuel₂ 0 [] = some (Except.error msg₂)) :
    DjangoRedisCachePanel.queryPrim backend₁ fuel₁ keyPrefix version
        pat₁ page per_page scan_count =
      some { keys := [], total_count := 0, page := page, per_page := per_page,
             error := some msg₁ } ∧
    msg₁ ≠ "" ∧
    RedisCachePanel.queryPrim backend₂ fuel₂ pat₂ page per_page scan_count =
      some { keys := [], total_count := 0, page := page, per_page := per_page,
             error := some ("SCAN failed: " ++ msg₂) } ∧
    "SCAN failed: " ++ msg₂ ≠ "" := by
  refine ⟨?_, hm, ?_, scanFailed_ne_empty msg₂⟩
  · simp only [DjangoRedisCachePanel.queryPrim]
    rw [h₁]
  · simp only [RedisCachePanel.queryPrim]
    rw [h₂]

/-- A backend whose `SCAN` raises a connection error on the first
iteration. -/
def scanAlwaysFails : String → Nat → Nat → ScanResp :=
  fun _ _ _ => ScanResp.fail "Connection refused"

/-- C5 witness: with a backend that raises `"Connection refused"` during
the scan, both Redis adapters return the empty result with a non-empty
error instead of raising. -/
theorem C5_scan_failure_witness :
    DjangoRedisCachePanel.queryPrim scanAlwaysFails 1 "" 1 "*" 1 25 100 =
      some { keys := [], total_count := 0, page := 1, per_page := 25,
             error := some "Connection refused" } ∧
    "Connection refused" ≠ "" ∧
    RedisCachePanel.queryPrim scanAlwaysFails 1 "*" 1 25 100 =
      some { keys := [], total_count := 0, page := 1, per_page := 25,
             error := some ("SCAN failed: " ++ "Connection refused") } ∧
    "SCAN failed: " ++ "Connection refused" ≠ "" :=
  C5_scan_failure scanAlwaysFails scanAlwaysFails 1 1 "" 1 "*" "*" 1 25 100
    "Connection refused" "Connection refused" rfl (by decide) rfl

/-! ## C8: the Scan Result shape invariant -/

/-- Entries pairwise ordered by `entryLe` have their logical keys pairwise
ordered by `≤`. -/
theorem sorted_keys_of_entryLe {l : List RedisKeyEntry}
    (h : List.Pairwise entryLe l) :
    List.Sorted (· ≤ ·) (l.map RedisKeyEntry.key) := by
  rw [List.Sorted, List.pairwise_map]
  exact h.imp (fun hab => (pyStrLe_iff _ _).mp hab)

/-- C8: every Scan Result satisfies the shape invariant — at most
`per_page` keys, `total_count` equal to the size of the full matching key
set before slicing, and keys sorted lexicographically (ascending `≤` on
logical keys) — for the local-memory scan engine on every input, and for
the django-redis scan engine on every successful scan.  The embedded
engines are pure functions of the backend data, so repeated calls against
unchanged data return identical (hence stably paginated) orderings. -/
theorem C8_scan_result_invariant :
    (∀ (internalKeys : List String) (keyPrefix pat : String)
       (page per_page : Nat),
      (LocalMemoryCachePanel.queryPrim internalKeys keyPrefix pat page
          per_page).keys.length ≤ per_page ∧
      (LocalMemoryCachePanel.queryPrim internalKeys keyPrefix pat page
          per_page).total_count =
        (locmemMatchingKeys internalKeys keyPrefix pat).length ∧
      List.Sorted (· ≤ ·)
        (LocalMemoryCachePanel.queryPrim internalKeys keyPrefix pat page
          per_page).keys) ∧
    (∀ (backend : String → Nat → Nat → ScanResp) (fuel : Nat)
       (keyPrefix : String) (version : Nat) (pat : String)
       (page per_page scan_count : Nat) (all_keys : List String),
      scanAll
          (fun cursor => backend
            (make_key keyPrefix version
              (if pat ≠ "" && pat ≠ "*" then pat else "*"))
            scan_count cursor)
          fuel 0 [] = some (Except.ok all_keys) →
      DjangoRedisCachePanel.queryPrim backend fuel keyPrefix version pat
          page per_page scan_count =
        some { keys := ((djangoRedisDecodedSorted keyPrefix all_keys).drop
                 ((page - 1) * per_page)).take per_page,
               total_count := (djangoRedisDecodedSorted keyPrefix
                 all_keys).length,
               page := page, per_page := per_page,
               error := Option.none } ∧
      (((djangoRedisDecodedSorted keyPrefix all_keys).drop
          ((page - 1) * per_page)).take per_page).length ≤ per_page ∧
      (djangoRedisDecodedSorted keyPrefix all_keys).length =
        all_keys.length ∧
      List.Sorted (· ≤ ·)
        ((((djangoRedisDecodedSorted keyPrefix all_keys).drop
            ((page - 1) * per_page)).take per_page).map
          RedisKeyEntry.key)) := by
  constructor
  · intro internalKeys keyPrefix pat page per_page
    refine ⟨?_, ?_, ?_⟩
    · simp only [LocalMemoryCachePanel.queryPrim, List.length_take]
      exact Nat.min_le_left _ _
    · simp only [LocalMemoryCachePanel.queryPrim, pySort_length]
    · simp only [LocalMemoryCachePanel.queryPrim]
      exact List.Pairwise.sublist
        ((List.take_sublist _ _).trans (List.drop_sublist _ _))
        (pySort_sorted _)
  · intro backend fuel keyPrefix version pat page per_page scan_count all_keys h
    refine ⟨?_, ?_, ?_, ?_⟩
    · simp only [DjangoRedisCachePanel.queryPrim]
      rw [h]
    · simp only [List.length_take]
      exact Nat.min_le_left _ _
    · unfold djangoRedisDecodedSorted
      rw [(List.perm_insertionSort entryLe _).length_eq, List.length_map]
    · exact sorted_keys_of_entryLe
        (List.Pairwise.sublist
          ((List.take_sublist _ _).trans (List.drop_sublist _ _))
          (List.sorted_insertionSort entryLe _))

/-- A backend answering two physical keys in one batch. -/
def scanTwoKeys : String → Nat → Nat → ScanResp :=
  fun _ _ _ => ScanResp.batch 0 [":1:b", ":1:a"]

/-- C8 witness: the shape invariant evaluated on concrete backends. -/
theorem C8_scan_result_invariant_witness :
    (LocalMemoryCachePanel.queryPrim [":1:b", ":1:a"] "" "*" 1
        1).keys.length ≤ 1 ∧
    (DjangoRedisCachePanel.queryPrim scanTwoKeys 1 "" 1 "*" 1 25 100 =
      some { keys := ((djangoRedisDecodedSorted "" [":1:b", ":1:a"]).drop
               0).take 25,
             total_count := (djangoRedisDecodedSorted ""
               [":1:b", ":1:a"]).length,
             page := 1, per_page := 25, error := Option.none } ∧
     (((djangoRedisDecodedSorted "" [":1:b", ":1:a"]).drop 0).take
        25).length ≤ 25 ∧
     (djangoRedisDecodedSorted "" [":1:b", ":1:a"]).length = 2 ∧
     List.Sorted (· ≤ ·)
       ((((djangoRedisDecodedSorted "" [":1:b", ":1:a"]).drop 0).take
          25).map RedisKeyEntry.key)) :=
  ⟨(C8_scan_result_invariant.1 [":1:b", ":1:a"] "" "*" 1 1).1,
   C8_scan_result_invariant.2 scanTwoKeys 1 "" 1 "*" 1 25 100
     [":1:b", ":1:a"] rfl⟩

/-! ## C3: flush scoping on a shared backend server

`CachePanel._flush_cache` runs `self.cache.clear()`.  For a remote store
the spec records (§4.4 and the §9 open question) that the backend's native
`clear` is a global flush of the physical server, not scoped to the
logical instance's prefix/version namespace, and flags the resulting
behavior as a latent bug. -/

/-- Modelled from the spec: the native `clear()` primitive that
`CachePanel._flush_cache` invokes on a remote (Redis) backend, absent from
`src/` (it lives in the backend client).  Per the spec's §4.4/§9
discussion it flushes the entire shared physical server — every physical
key of every logical instance — rather than only the calling instance's
prefix/version namespace. -/
def remoteCacheClear (_server : List (String × PyVal)) :
    List (String × PyVal) := []

/-- Embedding of `CachePanel._flush_cache` over the shared physical server
of a remote backend: call `clear()` and report success. -/
def CachePanel.flushCacheRemotePrim (server : List (String × PyVal)) :
    OpResult × List (String × PyVal) :=
  ({ success := true, error := Option.none,
     message := "Cache flushed successfully." },
   remoteCacheClear server)

/-- C3 (code evaluation at the failing input): on a shared server holding
`":1:a:k1"` (instance with prefix `"a"`) and `":1:b:k2"` (instance with
prefix `"b"`), flushing the first instance leaves the server empty — the
other instance's entry, present before the call, is deleted rather than
left untouched. -/
theorem C3_flush_unscoped :
    (CachePanel.flushCacheRemotePrim
        [(":1:a:k1", PyVal.int 1), (":1:b:k2", PyVal.int 2)]).2 = [] ∧
    (":1:b:k2", PyVal.int 2) ∈
      [(":1:a:k1", PyVal.int 1), (":1:b:k2", PyVal.int 2)] ∧
    ¬ (":1:b:k2", PyVal.int 2) ∈
      (CachePanel.flushCacheRemotePrim
        [(":1:a:k1", PyVal.int 1), (":1:b:k2", PyVal.int 2)]).2 :=
  ⟨rfl, by decide, by decide⟩
